import Mathlib

/-!
Verification of the express_mock_server bootstrap and middleware stack.

The repository has two bootstrap variants of `src/index.ts`:
* a TLS-capable variant reading `sslcert/server.key` / `sslcert/server.crt`
  and the `DEFAULT_PORT` / `HTTP_PORT` / `HTTPS_PORT` environment variables;
* a plain variant reading only `PORT`.

Both are shallowly embedded below as straight-line functions from an
environment snapshot (the state of `process.env` after `dotenv.config()`)
and a filesystem snapshot to a trace of observable events plus an outcome.
The items service / store / router and the bodies of the error and
not-found middleware are not part of the sources; where a claim needs
them they are modelled from the spec, and marked as such.
-/

/-- Snapshot of `process.env` as visible to the bootstrap after
`dotenv.config()` has run.  `none` means the variable is unset; `other`
holds every environment variable not named in the sources. -/
structure Env where
  DEFAULT_PORT : Option String
  HTTP_PORT : Option String
  HTTPS_PORT : Option String
  PORT : Option String
  other : List (String × String)
deriving DecidableEq, Repr

/-- Snapshot of the filesystem at startup: the contents of the two
certificate files, `none` meaning `fs.readFileSync` would throw. -/
structure Fs where
  serverKey : Option String
  serverCrt : Option String
deriving DecidableEq, Repr

/-- Path of the private key file, as written in `src/index.ts`. -/
def keyPath : String := "sslcert/server.key"

/-- Path of the certificate file, as written in `src/index.ts`. -/
def crtPath : String := "sslcert/server.crt"

/-- JavaScript truthiness of `process.env.X`: an unset variable is
`undefined` (falsy) and the empty string is falsy; every other string is
truthy.  This is the test performed by `if (!process.env.X)`. -/
def envTruthy : Option String → Bool
  | none => false
  | some s => !(s == "")

/-- Leading decimal digits of a character list. -/
def leadingDigits : List Char → List Char
  | [] => []
  | c :: cs => if c.isDigit then c :: leadingDigits cs else []

/-- Numeric value of a digit list, most significant first. -/
def digitsToNat (ds : List Char) : Nat :=
  ds.foldl (fun acc c => acc * 10 + (c.toNat - 48)) 0

/-- Whitespace skipped by JavaScript `parseInt`. -/
def isJsSpace (c : Char) : Bool :=
  c == ' ' || c == '\t' || c == '\n' || c == '\r'

/-- Core of `parseInt(s, 10)` after whitespace stripping: an optional
sign followed by at least one decimal digit; trailing characters are
ignored; no digits means `NaN`, embedded as `none`. -/
def parseIntCore : List Char → Option Int
  | [] => none
  | '-' :: rest =>
      let ds := leadingDigits rest
      if ds.isEmpty then none else some (-(digitsToNat ds : Int))
  | '+' :: rest =>
      let ds := leadingDigits rest
      if ds.isEmpty then none else some (digitsToNat ds : Int)
  | l =>
      let ds := leadingDigits l
      if ds.isEmpty then none else some (digitsToNat ds : Int)

/-- JavaScript `parseInt(s, 10)`; `none` embeds `NaN`. -/
def parseIntJS (s : String) : Option Int :=
  parseIntCore (s.data.dropWhile (fun c => isJsSpace c))

/-- Observable events emitted by the bootstrap, in program order. -/
inductive Event
  | readFile (path : String)
  | exitProc (code : Nat)
  | createApp
  | createHttpServer
  | createHttpsServer (key : String) (crt : String)
  | listen (port : Option Int)
deriving DecidableEq, Repr

/-- Protocol of the server finally bound by `listen`. -/
inductive Proto
  | httpP
  | httpsP
deriving DecidableEq, Repr

/-- Terminal state of the bootstrap. -/
inductive Outcome
  | threw (path : String)
  | exited (code : Nat)
  | listening (protocol : Proto) (creds : Option (String × String))
      (port : Option Int) (env : Env)
deriving DecidableEq, Repr

/-- Protocol of a listening outcome, `none` otherwise. -/
def Outcome.protocol : Outcome → Option Proto
  | .listening p _ _ _ => some p
  | _ => none

/-- Credentials of a listening outcome. -/
def Outcome.creds : Outcome → Option (String × String)
  | .listening _ c _ _ => c
  | _ => none

/-- Port of a listening outcome. -/
def Outcome.port : Outcome → Option (Option Int)
  | .listening _ _ p _ => some p
  | _ => none

/-- Whether the outcome is the Listening state. -/
def Outcome.isListening : Outcome → Bool
  | .listening _ _ _ _ => true
  | _ => false

/-- Result of running a bootstrap: the event trace, the terminal
outcome, and the final state of `process.env`. -/
structure BootResult where
  trace : List Event
  outcome : Outcome
  finalEnv : Env
deriving DecidableEq, Repr

/-- Shallow embedding of the TLS-capable `src/index.ts`, line by line:
read the key then the certificate with `fs.readFileSync` (a failure
throws at module initialization); exit with code 1 if any of
`DEFAULT_PORT`, `HTTPS_PORT`, `HTTP_PORT` is falsy; set
`PORT = parseInt(HTTP_PORT, 10)` and reassign `parseInt(HTTPS_PORT, 10)`
when `DEFAULT_PORT == "https"`; build the app; create an HTTP server,
then — because the condition `process.env.DEFAULT_PORT = "https"` is an
assignment whose value `"https"` is truthy — always replace it by an
HTTPS server with the loaded credentials, mutating
`process.env.DEFAULT_PORT`; finally bind `listen(PORT)`. -/
def bootstrapTls (env : Env) (fsys : Fs) : BootResult :=
  match fsys.serverKey with
  | none =>
      { trace := [Event.readFile keyPath]
        outcome := Outcome.threw keyPath
        finalEnv := env }
  | some privateKey =>
    match fsys.serverCrt with
    | none =>
        { trace := [Event.readFile keyPath, Event.readFile crtPath]
          outcome := Outcome.threw crtPath
          finalEnv := env }
    | some certificate =>
      if !envTruthy env.DEFAULT_PORT || !envTruthy env.HTTPS_PORT
          || !envTruthy env.HTTP_PORT then
        { trace := [Event.readFile keyPath, Event.readFile crtPath,
                    Event.exitProc 1]
          outcome := Outcome.exited 1
          finalEnv := env }
      else
        let port0 := parseIntJS (env.HTTP_PORT.getD "")
        let port :=
          if env.DEFAULT_PORT = some "https" then
            parseIntJS (env.HTTPS_PORT.getD "")
          else port0
        let env2 := { env with DEFAULT_PORT := some "https" }
        { trace := [Event.readFile keyPath, Event.readFile crtPath,
                    Event.createApp, Event.createHttpServer,
                    Event.createHttpsServer privateKey certificate,
                    Event.listen port]
          outcome := Outcome.listening Proto.httpsP
              (some (privateKey, certificate)) port env2
          finalEnv := env2 }

/-- Shallow embedding of the plain variant of `src/index.ts`: exit with
code 1 if `PORT` is falsy, otherwise build the app and bind
`app.listen(parseInt(PORT, 10))` over plain HTTP. -/
def bootstrapPlain (env : Env) : BootResult :=
  if !envTruthy env.PORT then
    { trace := [Event.exitProc 1]
      outcome := Outcome.exited 1
      finalEnv := env }
  else
    let port := parseIntJS (env.PORT.getD "")
    { trace := [Event.createApp, Event.listen port]
      outcome := Outcome.listening Proto.httpP none port env
      finalEnv := env }

/-- Whether an event is a file read of the given path. -/
def isReadOf (p : String) : Event → Bool
  | Event.readFile q => q == p
  | _ => false

/-- Number of read events for a given path in a trace. -/
def countReads (t : List Event) (p : String) : Nat :=
  t.countP (isReadOf p)

/-- The middleware layers mounted by `app.use`, in source order common
to both variants of `src/index.ts`: `helmet()`, `cors()`,
`express.json()`, the items router at `"/items"`, `errorHandler`,
`notFoundHandler`. -/
inductive Middleware
  | helmet
  | cors
  | jsonParser
  | itemsMount
  | errHandler
  | notFound
deriving DecidableEq, Repr

/-- The middleware stack assembled by the TLS-capable `src/index.ts`. -/
def appStackTls : List Middleware :=
  [Middleware.helmet, Middleware.cors, Middleware.jsonParser,
   Middleware.itemsMount, Middleware.errHandler, Middleware.notFound]

/-- The middleware stack assembled by the plain variant. -/
def appStackPlain : List Middleware :=
  [Middleware.helmet, Middleware.cors, Middleware.jsonParser,
   Middleware.itemsMount, Middleware.errHandler, Middleware.notFound]

/-- An HTTP response: status code and JSON `message` field. -/
structure Response where
  status : Nat
  message : String
deriving DecidableEq, Repr

/-- Modelled from the spec: `notFoundHandler`
(`src/middleware/notFound.middleware`, not among the sources) answers
every request that reaches it with 404 and the uniform JSON error body
`\x7b message: "Not Found" \x7d`. -/
def notFoundResponse : Response :=
  { status := 404, message := "Not Found" }

/-- Boolean list-prefix test on characters. -/
def listPrefix : List Char → List Char → Bool
  | [], _ => true
  | _ :: _, [] => false
  | a :: as, b :: bs => a == b && listPrefix as bs

/-- Express route matching for a router mounted at `"/items"`: the path
`/items` itself or any path below it. -/
def matchesItemsMount (path : String) : Bool :=
  path == "/items" || listPrefix "/items/".data path.data

/-- Modelled from the spec: traversal of the assembled middleware stack
for one inbound request.  `helmet`, `cors` and `express.json` only
decorate the request and pass control on; the items router handles
exactly the paths under its `"/items"` mount (its response is the
abstract `handler`, since `src/items/items.router` is not among the
sources); an Express error handler takes four arguments and is skipped
when no error is in flight; `notFoundHandler` terminates the chain.
Returns the layers executed in order and the response, if any. -/
def runTrace (handler : String → Response) :
    List Middleware → String → List Middleware × Option Response
  | [], _ => ([], none)
  | Middleware.itemsMount :: rest, path =>
      if matchesItemsMount path then
        ([Middleware.itemsMount], some (handler path))
      else
        let r := runTrace handler rest path
        (Middleware.itemsMount :: r.1, r.2)
  | Middleware.notFound :: _, _ =>
      ([Middleware.notFound], some notFoundResponse)
  | m :: rest, path =>
      let r := runTrace handler rest path
      (m :: r.1, r.2)

/-- Response produced by running a request through a middleware stack. -/
def runStack (handler : String → Response) (stack : List Middleware)
    (path : String) : Option Response :=
  (runTrace handler stack path).2

/-- Modelled from the spec: an Item record (id, name, price); the items
module is not among the sources. -/
structure Item where
  id : Nat
  name : String
  price : Int
deriving DecidableEq, Repr

/-- Modelled from the spec: `find(id)` of the Item Store returns the
item with matching id or an absence signal. -/
def findItem (s : List Item) (i : Nat) : Option Item :=
  s.find? (fun it => it.id == i)

/-- Modelled from the spec: `remove(id)` of the Item Store deletes the
item with the given id. -/
def removeItem (s : List Item) (i : Nat) : List Item :=
  s.filter (fun it => !(it.id == i))

/-- Modelled from the spec: handling of `DELETE /items/:id` — remove
and answer 204 when the id exists, answer 404 and leave the store
unchanged otherwise.  Returns the new store and the status code. -/
def deleteItemStep (s : List Item) (i : Nat) : List Item × Nat :=
  match findItem s i with
  | some _ => (removeItem s i, 204)
  | none => (s, 404)

/-- Modelled from the spec: status of `GET /items/:id` — 200 when the
id exists, 404 otherwise. -/
def getItemStatus (s : List Item) (i : Nat) : Nat :=
  match findItem s i with
  | some _ => 200
  | none => 404

/-- A concrete environment whose `DEFAULT_PORT` requests plain HTTP. -/
def envHttpEx : Env :=
  { DEFAULT_PORT := some "http", HTTP_PORT := some "7000",
    HTTPS_PORT := some "7443", PORT := none,
    other := [("HOME", "/root")] }

/-- A concrete environment with every port variable unset. -/
def envEmptyEx : Env :=
  { DEFAULT_PORT := none, HTTP_PORT := none, HTTPS_PORT := none,
    PORT := none, other := [] }

/-- A concrete environment requesting plain HTTP with the other port
variables unset. -/
def envPlainMissingEx : Env :=
  { DEFAULT_PORT := some "http", HTTP_PORT := none, HTTPS_PORT := none,
    PORT := none, other := [] }

/-- A concrete filesystem with readable certificate material. -/
def fsOkEx : Fs := { serverKey := some "KEYPEM", serverCrt := some "CRTPEM" }

/-- A concrete filesystem whose private key file is unreadable. -/
def fsNoKeyEx : Fs := { serverKey := none, serverCrt := some "CRTPEM" }

/-- C1: in the TLS-capable bootstrap, for every environment that passes
the startup variable check (with readable certificate files, which are
loaded first), the server bound by `listen` is an HTTPS server created
with the loaded credentials — even when `DEFAULT_PORT` is not
`"https"` — because the mode comparison in the server-creation branch
is the assignment `process.env.DEFAULT_PORT = "https"`, whose value is
always truthy. -/
theorem tls_mode_always_https (env : Env) (fsys : Fs) (key crt : String)
    (hk : fsys.serverKey = some key) (hc : fsys.serverCrt = some crt)
    (h1 : envTruthy env.DEFAULT_PORT = true)
    (h2 : envTruthy env.HTTPS_PORT = true)
    (h3 : envTruthy env.HTTP_PORT = true) :
    (bootstrapTls env fsys).outcome.protocol = some Proto.httpsP ∧
    (bootstrapTls env fsys).outcome.creds = some (key, crt) := by
  simp [bootstrapTls, hk, hc, h1, h2, h3, Outcome.protocol, Outcome.creds]

/-- Witness for C1 at a concrete environment whose `DEFAULT_PORT` is
`"http"`: the bound server is nevertheless HTTPS with the loaded
credentials. -/
theorem tls_mode_always_https_witness :
    (bootstrapTls envHttpEx fsOkEx).outcome.protocol = some Proto.httpsP ∧
    (bootstrapTls envHttpEx fsOkEx).outcome.creds = some ("KEYPEM", "CRTPEM") :=
  tls_mode_always_https envHttpEx fsOkEx "KEYPEM" "CRTPEM" rfl rfl
    (by decide) (by decide) (by decide)

/-- C2: in the TLS-capable bootstrap the listening port is
`parseInt(HTTPS_PORT, 10)` exactly when `DEFAULT_PORT` equals the
string `"https"` and `parseInt(HTTP_PORT, 10)` for every other value;
the choice is an equality comparison on the original environment, made
before the protocol-selection branch mutates `DEFAULT_PORT`. -/
theorem port_selected_by_equality (env : Env) (fsys : Fs)
    (key crt hp sp : String)
    (hk : fsys.serverKey = some key) (hc : fsys.serverCrt = some crt)
    (hhp : env.HTTP_PORT = some hp) (hsp : env.HTTPS_PORT = some sp)
    (h1 : envTruthy env.DEFAULT_PORT = true)
    (h2 : envTruthy env.HTTPS_PORT = true)
    (h3 : envTruthy env.HTTP_PORT = true) :
    (bootstrapTls env fsys).outcome.port =
      some (if env.DEFAULT_PORT = some "https" then parseIntJS sp
            else parseIntJS hp) := by
  rw [hhp] at h3
  rw [hsp] at h2
  simp [bootstrapTls, hk, hc, hhp, hsp, h1, h2, h3, Outcome.port]

/-- Witness for C2 at a concrete environment with `DEFAULT_PORT` set to
`"http"`, so the selected port comes from `HTTP_PORT`. -/
theorem port_selected_by_equality_witness :
    (bootstrapTls envHttpEx fsOkEx).outcome.port =
      some (if envHttpEx.DEFAULT_PORT = some "https" then parseIntJS "7443"
            else parseIntJS "7000") :=
  port_selected_by_equality envHttpEx fsOkEx "KEYPEM" "CRTPEM" "7000" "7443"
    rfl rfl rfl rfl (by decide) (by decide) (by decide)

/-- C3: missing required port variables are fatal with exit code 1
before the Express app is constructed and before any socket is bound —
in the TLS-capable variant (certificates readable) when any of
`DEFAULT_PORT`, `HTTPS_PORT`, `HTTP_PORT` is unset, and in the plain
variant when `PORT` is unset. -/
theorem missing_port_vars_exit1 (env : Env) (fsys : Fs) (key crt : String)
    (hk : fsys.serverKey = some key) (hc : fsys.serverCrt = some crt) :
    ((env.DEFAULT_PORT = none ∨ env.HTTPS_PORT = none ∨
        env.HTTP_PORT = none) →
      (bootstrapTls env fsys).outcome = Outcome.exited 1 ∧
      Event.createApp ∉ (bootstrapTls env fsys).trace ∧
      (∀ p, Event.listen p ∉ (bootstrapTls env fsys).trace)) ∧
    (env.PORT = none →
      (bootstrapPlain env).outcome = Outcome.exited 1 ∧
      Event.createApp ∉ (bootstrapPlain env).trace ∧
      (∀ p, Event.listen p ∉ (bootstrapPlain env).trace)) := by
  constructor
  · intro htls
    have hcond : (!envTruthy env.DEFAULT_PORT || !envTruthy env.HTTPS_PORT
        || !envTruthy env.HTTP_PORT) = true := by
      rcases htls with h | h | h <;> simp [h, envTruthy]
    have hred : bootstrapTls env fsys =
        { trace := [Event.readFile keyPath, Event.readFile crtPath,
                    Event.exitProc 1]
          outcome := Outcome.exited 1
          finalEnv := env } := by
      simp only [bootstrapTls, hk, hc]
      rw [if_pos hcond]
    rw [hred]
    refine ⟨rfl, by simp, fun p => by simp⟩
  · intro hp
    have hred : bootstrapPlain env =
        { trace := [Event.exitProc 1]
          outcome := Outcome.exited 1
          finalEnv := env } := by
      simp [bootstrapPlain, hp, envTruthy]
    rw [hred]
    refine ⟨rfl, by simp, fun p => by simp⟩

/-- Witness for C3 at a concrete environment with every port variable
unset: both variants exit with code 1. -/
theorem missing_port_vars_exit1_witness :
    (bootstrapTls envEmptyEx fsOkEx).outcome = Outcome.exited 1 ∧
    (bootstrapPlain envEmptyEx).outcome = Outcome.exited 1 :=
  ⟨((missing_port_vars_exit1 envEmptyEx fsOkEx "KEYPEM" "CRTPEM"
      rfl rfl).1 (Or.inl rfl)).1,
   ((missing_port_vars_exit1 envEmptyEx fsOkEx "KEYPEM" "CRTPEM"
      rfl rfl).2 rfl).1⟩

/-- C4: if either certificate file is unreadable, the TLS-capable
bootstrap terminates before binding a listening socket — the outcome is
never Listening and the trace contains no `listen` event. -/
theorem unreadable_cert_never_listening (env : Env) (fsys : Fs)
    (h : fsys.serverKey = none ∨ fsys.serverCrt = none) :
    (bootstrapTls env fsys).outcome.isListening = false ∧
    (∀ p, Event.listen p ∉ (bootstrapTls env fsys).trace) := by
  rcases h with h | h
  · simp only [bootstrapTls, h]
    exact ⟨rfl, fun p => by simp⟩
  · cases hk : fsys.serverKey with
    | none =>
        simp only [bootstrapTls, hk]
        exact ⟨rfl, fun p => by simp⟩
    | some k =>
        simp only [bootstrapTls, hk, h]
        exact ⟨rfl, fun p => by simp⟩

/-- Witness for C4 at a concrete filesystem whose private key is
unreadable: the bootstrap never reaches the Listening state. -/
theorem unreadable_cert_never_listening_witness :
    (bootstrapTls envHttpEx fsNoKeyEx).outcome.isListening = false ∧
    (∀ p, Event.listen p ∉ (bootstrapTls envHttpEx fsNoKeyEx).trace) :=
  unreadable_cert_never_listening envHttpEx fsNoKeyEx (Or.inl rfl)

/-- C5: the certificate files are read at module initialization, before
the port-variable check and before the TLS-mode decision — the very
first event of every run is the read of `sslcert/server.key`, and when
either file is unreadable the bootstrap ends with a thrown exception
rather than the `exit(1)` path, for every environment, including ones
whose `DEFAULT_PORT` requests plain HTTP or whose port variables are
unset. -/
theorem cert_read_precedes_env_check (env : Env) (fsys : Fs)
    (h : fsys.serverKey = none ∨ fsys.serverCrt = none) :
    (∃ p, (bootstrapTls env fsys).outcome = Outcome.threw p) ∧
    (bootstrapTls env fsys).outcome ≠ Outcome.exited 1 ∧
    Event.exitProc 1 ∉ (bootstrapTls env fsys).trace ∧
    (bootstrapTls env fsys).trace.head? = some (Event.readFile keyPath) := by
  rcases h with h | h
  · simp only [bootstrapTls, h]
    exact ⟨⟨keyPath, rfl⟩, by simp, by simp, rfl⟩
  · cases hk : fsys.serverKey with
    | none =>
        simp only [bootstrapTls, hk]
        exact ⟨⟨keyPath, rfl⟩, by simp, by simp, rfl⟩
    | some k =>
        simp only [bootstrapTls, hk, h]
        exact ⟨⟨crtPath, rfl⟩, by simp, by simp, rfl⟩

/-- Witness for C5 at a concrete environment that requests plain HTTP
and has no port variables set: the unreadable key still yields a thrown
exception, not `exit(1)`. -/
theorem cert_read_precedes_env_check_witness :
    (∃ p, (bootstrapTls envPlainMissingEx fsNoKeyEx).outcome =
        Outcome.threw p) ∧
    (bootstrapTls envPlainMissingEx fsNoKeyEx).outcome ≠ Outcome.exited 1 ∧
    Event.exitProc 1 ∉ (bootstrapTls envPlainMissingEx fsNoKeyEx).trace ∧
    (bootstrapTls envPlainMissingEx fsNoKeyEx).trace.head? =
      some (Event.readFile keyPath) :=
  cert_read_precedes_env_check envPlainMissingEx fsNoKeyEx (Or.inl rfl)

/-- C6: any request whose path matches no registered route falls
through the whole stack to `notFoundHandler` — mounted after the items
router and after the error handler — and gets 404 with the uniform body
message `"Not Found"`, whatever the items router would answer. -/
theorem unmatched_path_not_found (handler : String → Response)
    (path : String) (h : matchesItemsMount path = false) :
    runStack handler appStackTls path =
      some { status := 404, message := "Not Found" } ∧
    appStackTls.indexOf Middleware.itemsMount <
      appStackTls.indexOf Middleware.notFound ∧
    appStackTls.indexOf Middleware.errHandler <
      appStackTls.indexOf Middleware.notFound := by
  refine ⟨?_, by decide, by decide⟩
  simp [runStack, runTrace, appStackTls, h, notFoundResponse]

/-- Witness for C6 at the concrete path `/unknown`: the response is 404
with message `"Not Found"`. -/
theorem unmatched_path_not_found_witness :
    runStack (fun _ => { status := 200, message := "ok" }) appStackTls
        "/unknown" = some { status := 404, message := "Not Found" } ∧
    appStackTls.indexOf Middleware.itemsMount <
      appStackTls.indexOf Middleware.notFound ∧
    appStackTls.indexOf Middleware.errHandler <
      appStackTls.indexOf Middleware.notFound :=
  unmatched_path_not_found (fun _ => { status := 200, message := "ok" })
    "/unknown" (by decide)

/-- C7: both bootstrap variants assemble the identical middleware
stack, and every inbound request traverses it in the fixed order
helmet, cors, JSON body parsing, items router — a request handled by
the items router executes exactly those four layers in that order,
and any other request continues through them into the error and
not-found layers in stack order. -/
theorem middleware_order_fixed (handler : String → Response)
    (path : String) :
    appStackTls = appStackPlain ∧
    (runTrace handler appStackTls path).1 =
      (if matchesItemsMount path then
        [Middleware.helmet, Middleware.cors, Middleware.jsonParser,
         Middleware.itemsMount]
      else appStackTls) := by
  refine ⟨rfl, ?_⟩
  cases h : matchesItemsMount path with
  | true => simp [runTrace, appStackTls, h]
  | false => simp [runTrace, appStackTls, h]

/-- C8: with readable certificate material, each certificate file is
read exactly once, as the first two events of the run, and the
credentials of a Listening outcome are exactly the contents loaded at
startup — no later event re-reads either file or replaces the
credentials. -/
theorem certs_read_exactly_once (env : Env) (fsys : Fs) (key crt : String)
    (hk : fsys.serverKey = some key) (hc : fsys.serverCrt = some crt) :
    countReads (bootstrapTls env fsys).trace keyPath = 1 ∧
    countReads (bootstrapTls env fsys).trace crtPath = 1 ∧
    (bootstrapTls env fsys).trace.take 2 =
      [Event.readFile keyPath, Event.readFile crtPath] ∧
    ((bootstrapTls env fsys).outcome.isListening = true →
      (bootstrapTls env fsys).outcome.creds = some (key, crt)) := by
  by_cases hcond : (!envTruthy env.DEFAULT_PORT || !envTruthy env.HTTPS_PORT
      || !envTruthy env.HTTP_PORT) = true
  · simp only [bootstrapTls, hk, hc]
    rw [if_pos hcond]
    refine ⟨?_, ?_, rfl, ?_⟩
    · simp [countReads, List.countP_cons, isReadOf, keyPath, crtPath]
    · simp [countReads, List.countP_cons, isReadOf, keyPath, crtPath]
    · intro hlist
      simp [Outcome.isListening] at hlist
  · simp only [bootstrapTls, hk, hc]
    rw [if_neg hcond]
    refine ⟨?_, ?_, rfl, fun _ => rfl⟩
    · simp [countReads, List.countP_cons, isReadOf, keyPath, crtPath]
    · simp [countReads, List.countP_cons, isReadOf, keyPath, crtPath]

/-- Witness for C8 at a concrete environment and readable filesystem:
both files are read once and the Listening credentials are the loaded
pair. -/
theorem certs_read_exactly_once_witness :
    countReads (bootstrapTls envHttpEx fsOkEx).trace keyPath = 1 ∧
    countReads (bootstrapTls envHttpEx fsOkEx).trace crtPath = 1 ∧
    (bootstrapTls envHttpEx fsOkEx).trace.take 2 =
      [Event.readFile keyPath, Event.readFile crtPath] ∧
    ((bootstrapTls envHttpEx fsOkEx).outcome.isListening = true →
      (bootstrapTls envHttpEx fsOkEx).outcome.creds =
        some ("KEYPEM", "CRTPEM")) :=
  certs_read_exactly_once envHttpEx fsOkEx "KEYPEM" "CRTPEM" rfl rfl

/-- Removing an id from the store leaves no item with that id to find. -/
theorem findItem_removeItem (s : List Item) (i : Nat) :
    findItem (removeItem s i) i = none := by
  induction s with
  | nil => rfl
  | cons a t ih =>
      by_cases h : a.id = i
      · have hred : removeItem (a :: t) i = removeItem t i := by
          simp [removeItem, List.filter_cons, h]
        rw [hred]
        exact ih
      · have hred : removeItem (a :: t) i = a :: removeItem t i := by
          simp [removeItem, List.filter_cons, h]
        have hskip : findItem (a :: removeItem t i) i =
            findItem (removeItem t i) i := by
          simp [findItem, h]
        rw [hred, hskip]
        exact ih

/-- C9: for every store and id, `DELETE /items/:id` followed
immediately by `GET /items/:id` yields 404 from the GET — whether the
delete removed the item or itself answered 404, the subsequent lookup
finds nothing. -/
theorem delete_then_get_404 (s : List Item) (i : Nat) :
    getItemStatus (deleteItemStep s i).1 i = 404 := by
  unfold deleteItemStep
  cases hf : findItem s i with
  | none => simp [getItemStatus, hf]
  | some it => simp [getItemStatus, findItem_removeItem]

/-- C10: when the TLS-capable bootstrap reaches the server-creation
branch, its only environment mutation is the assignment inside the
branch condition — afterwards `DEFAULT_PORT` holds `"https"` whatever
it held before, every other variable is untouched, and the listening
port was already selected from the original `DEFAULT_PORT`. -/
theorem server_branch_mutates_default_port (env : Env) (fsys : Fs)
    (key crt hp sp : String)
    (hk : fsys.serverKey = some key) (hc : fsys.serverCrt = some crt)
    (hhp : env.HTTP_PORT = some hp) (hsp : env.HTTPS_PORT = some sp)
    (h1 : envTruthy env.DEFAULT_PORT = true)
    (h2 : envTruthy env.HTTPS_PORT = true)
    (h3 : envTruthy env.HTTP_PORT = true) :
    (bootstrapTls env fsys).finalEnv =
      { env with DEFAULT_PORT := some "https" } ∧
    (bootstrapTls env fsys).outcome.port =
      some (if env.DEFAULT_PORT = some "https" then parseIntJS sp
            else parseIntJS hp) := by
  rw [hhp] at h3
  rw [hsp] at h2
  simp [bootstrapTls, hk, hc, hhp, hsp, h1, h2, h3, Outcome.port]

/-- Witness for C10 at a concrete environment whose `DEFAULT_PORT` is
`"http"`: after the branch `DEFAULT_PORT` reads `"https"`, the other
variables are unchanged, and the port still comes from `HTTP_PORT`. -/
theorem server_branch_mutates_default_port_witness :
    (bootstrapTls envHttpEx fsOkEx).finalEnv =
      { envHttpEx with DEFAULT_PORT := some "https" } ∧
    (bootstrapTls envHttpEx fsOkEx).outcome.port =
      some (if envHttpEx.DEFAULT_PORT = some "https" then parseIntJS "7443"
            else parseIntJS "7000") :=
  server_branch_mutates_default_port envHttpEx fsOkEx "KEYPEM" "CRTPEM"
    "7000" "7443" rfl rfl rfl rfl (by decide) (by decide) (by decide)
